import Mathlib

/-!
Verification of the session-authentication helper (`lib/auth`) of this
repository. The module's implementation is not part of this fragment (only
its test suite is), so the operations are modelled from the specification:
a Session Manager that mints, reads, verifies and revokes a signed session
token stored in an `auth-token` cookie, delegating signing and verification
to an external JWT service and cookie storage to the host framework.

The external signer is a parameter `sign : SessionPayload → String`; the
external verifier is a parameter `verify : String → Except String
SessionPayload` whose `Except.error` case models the verifier throwing
(malformed token, expired token, signature mismatch).  Cookie stores are
lookup functions `String → Option String`; the side effects of an operation
are recorded as an explicit list of `CookieOp`, and the signer's builder
calls as a list of `SignerStep`.  Return values of the session readers use
`JsValue`, which keeps JavaScript's `null` and `undefined` distinct.
-/

namespace Auth

/-- Modelled from the spec: the Session Payload, the sole entity of the data
model: caller-supplied `userId` and `email` (not validated for format) and
an `expiresAt` timestamp in milliseconds since the epoch. -/
structure SessionPayload where
  userId : String
  email : String
  expiresAt : Nat
deriving Repr, DecidableEq

/-- A JavaScript value returned by the session readers: the canonical
`null`, the distinct `undefined`, or a decoded session payload. -/
inductive JsValue where
  | null : JsValue
  | undefined : JsValue
  | value : SessionPayload → JsValue
deriving Repr, DecidableEq

/-- Modelled from the spec: the attributes placed on the transport cookie. -/
structure CookieOptions where
  httpOnly : Bool
  sameSite : String
  path : String
  expires : Nat
deriving Repr, DecidableEq

/-- One operation performed on a cookie store (`get`, `set` or `delete`). -/
inductive CookieOp where
  | get : String → CookieOp
  | set : String → String → CookieOptions → CookieOp
  | delete : String → CookieOp
deriving Repr, DecidableEq

/-- One builder call made on the external signer object. -/
inductive SignerStep where
  | setProtectedHeader : String → SignerStep
  | setExpirationTime : String → SignerStep
  | setIssuedAt : SignerStep
  | sign : SignerStep
deriving Repr, DecidableEq

/-- The name of the session cookie. -/
def authCookieName : String := "auth-token"

/-- The symmetric signing algorithm identifier placed in the token header. -/
def hs256 : String := "HS256"

/-- The fixed expiration window passed to the signer. -/
def sevenDayWindow : String := "7d"

/-- Seven days in milliseconds, the fixed session validity window. -/
def sevenDaysMs : Nat := 7 * 24 * 60 * 60 * 1000

/-- Everything observable about one `createSession` call: the payload it
built, the builder calls it made on the signer, the token the signer
returned, and the cookie-store operations it performed. -/
structure CreateSessionResult where
  payload : SessionPayload
  signerTrace : List SignerStep
  token : String
  cookieOps : List CookieOp
deriving Repr, DecidableEq

/-- Modelled from the spec: `createSession(userId, email)` computes
`expiresAt = now + 7 days`, builds the payload `{userId, email, expiresAt}`,
has the external signer produce a compact token (header `HS256`, expiration
window `7d`, an issued-at claim, then `sign`), and writes the token into the
`auth-token` cookie with `httpOnly=true`, `sameSite=lax`, `path=/` and
`expires` equal to the payload's `expiresAt`.  `now` is the call's clock
reading in milliseconds; `sign` is the external signer. -/
def createSession (sign : SessionPayload → String) (now : Nat)
    (userId email : String) : CreateSessionResult :=
  let expiresAt := now + sevenDaysMs
  let payload : SessionPayload := ⟨userId, email, expiresAt⟩
  let token := sign payload
  ⟨payload,
   [SignerStep.setProtectedHeader hs256,
    SignerStep.setExpirationTime sevenDayWindow,
    SignerStep.setIssuedAt,
    SignerStep.sign],
   token,
   [CookieOp.set authCookieName token ⟨true, "lax", "/", expiresAt⟩]⟩

/-- Modelled from the spec: `getSession()` reads the `auth-token` cookie
from the ambient cookie store; if absent it returns `null`; if present it
delegates to the external verifier and returns the decoded payload on
success, or `null` when the verifier throws for any reason. -/
def getSession (verify : String → Except String SessionPayload)
    (store : String → Option String) : JsValue :=
  match store authCookieName with
  | none => JsValue.null
  | some token =>
    match verify token with
    | Except.ok payload => JsValue.value payload
    | Except.error _ => JsValue.null

/-- A request object carrying its own cookie accessor, as supplied to
`verifySession` where the ambient context is unavailable. -/
structure NextRequest where
  cookies : String → Option String

/-- Modelled from the spec: `verifySession(request)` has the same contract
as `getSession` but reads the `auth-token` cookie from the explicitly
supplied request object. -/
def verifySession (verify : String → Except String SessionPayload)
    (request : NextRequest) : JsValue :=
  match request.cookies authCookieName with
  | none => JsValue.null
  | some token =>
    match verify token with
    | Except.ok payload => JsValue.value payload
    | Except.error _ => JsValue.null

/-- Modelled from the spec: `deleteSession()` deletes the `auth-token`
cookie from the ambient response context and does nothing else; its value
is the exact list of cookie-store operations it performs. -/
def deleteSession : List CookieOp :=
  [CookieOp.delete authCookieName]

/-- Apply one cookie operation to a cookie store. -/
def applyCookieOp (store : String → Option String) :
    CookieOp → (String → Option String)
  | CookieOp.get _ => store
  | CookieOp.set name value _ =>
      fun n => if n = name then some value else store n
  | CookieOp.delete name =>
      fun n => if n = name then none else store n

/-- Apply a list of cookie operations to a cookie store, left to right. -/
def applyCookieOps (store : String → Option String) :
    List CookieOp → (String → Option String)
  | [] => store
  | op :: ops => applyCookieOps (applyCookieOp store op) ops

/-- The empty cookie store. -/
def emptyStore : String → Option String := fun _ => none

/-- Extract the `expires` attribute when the operation list is exactly one
cookie `set`. -/
def setCookieExpires : List CookieOp → Option Nat
  | [CookieOp.set _ _ opts] => some opts.expires
  | _ => none

/-- A signer standing in for the external JWT library in witnesses. -/
def mockSign : SessionPayload → String := fun _ => "mock-jwt-token"

/-- A verifier that accepts exactly the mock token, decoding it to the
payload `createSession` builds at time 0 for the test identity. -/
def mockVerify : String → Except String SessionPayload := fun t =>
  if t = "mock-jwt-token" then
    Except.ok ⟨"user-123", "test@example.com", sevenDaysMs⟩
  else
    Except.error "Invalid token"

/-- A verifier that rejects every token, as when the cookie holds a
tampered, malformed or expired token. -/
def rejectAll : String → Except String SessionPayload :=
  fun _ => Except.error "Invalid token"

/-- An ambient cookie store whose `auth-token` cookie holds a tampered
token. -/
def tamperedStore : String → Option String := fun _ => some "tampered-token"

/-- A request whose `auth-token` cookie holds a tampered token. -/
def tamperedRequest : NextRequest := ⟨fun _ => some "tampered-token"⟩

/-- Claim C1: whenever the cookie value is present but the external
verifier rejects it — for any reason — both `getSession` and
`verifySession` return `null`; the verification exception is swallowed,
never propagated. -/
theorem rejection_swallowed (verify : String → Except String SessionPayload)
    (store : String → Option String) (request : NextRequest)
    (t u e1 e2 : String)
    (hstore : store authCookieName = some t)
    (hreq : request.cookies authCookieName = some u)
    (hvt : verify t = Except.error e1)
    (hvu : verify u = Except.error e2) :
    getSession verify store = JsValue.null ∧
    verifySession verify request = JsValue.null := by
  constructor
  · simp [getSession, hstore, hvt]
  · simp [verifySession, hreq, hvu]

/-- Witness for C1 at the tampered-token store and request. -/
theorem rejection_swallowed_witness :
    getSession rejectAll tamperedStore = JsValue.null ∧
    verifySession rejectAll tamperedRequest = JsValue.null :=
  rejection_swallowed rejectAll tamperedStore tamperedRequest
    "tampered-token" "tampered-token" "Invalid token" "Invalid token"
    rfl rfl rfl rfl

/-- Claim C2: for non-empty `userId` and `email`, `createSession` followed
immediately by `getSession` in the same context (the store holding exactly
the cookie `createSession` wrote) yields a payload whose `userId` and
`email` equal the inputs, whenever the external verifier decodes the token
the signer produced back to the signed payload. -/
theorem create_then_get (sign : SessionPayload → String)
    (verify : String → Except String SessionPayload)
    (now : Nat) (userId email : String)
    (hu : userId ≠ "") (he : email ≠ "")
    (hrt : verify (createSession sign now userId email).token =
           Except.ok (createSession sign now userId email).payload) :
    getSession verify
        (applyCookieOps emptyStore (createSession sign now userId email).cookieOps) =
      JsValue.value (createSession sign now userId email).payload ∧
    (createSession sign now userId email).payload.userId = userId ∧
    (createSession sign now userId email).payload.email = email := by
  refine ⟨?_, rfl, rfl⟩
  simp only [createSession] at hrt ⊢
  simp [getSession, applyCookieOps, applyCookieOp, emptyStore, hrt]

/-- Witness for C2 with the mock signer/verifier pair at time 0. -/
theorem create_then_get_witness :
    getSession mockVerify
        (applyCookieOps emptyStore
          (createSession mockSign 0 "user-123" "test@example.com").cookieOps) =
      JsValue.value (createSession mockSign 0 "user-123" "test@example.com").payload ∧
    (createSession mockSign 0 "user-123" "test@example.com").payload.userId = "user-123" ∧
    (createSession mockSign 0 "user-123" "test@example.com").payload.email = "test@example.com" :=
  create_then_get mockSign mockVerify 0 "user-123" "test@example.com"
    (by decide) (by decide) (by rfl)

/-- Claim C3: the `expiresAt` recorded inside the signed payload equals the
expiration timestamp set on the `auth-token` cookie; both are the single
computation `now + 7 days`, never recomputed independently. -/
theorem expiresAt_cookie_invariant (sign : SessionPayload → String)
    (now : Nat) (userId email : String) :
    setCookieExpires (createSession sign now userId email).cookieOps =
      some (createSession sign now userId email).payload.expiresAt ∧
    (createSession sign now userId email).payload.expiresAt = now + sevenDaysMs :=
  ⟨rfl, rfl⟩

/-- Claim C4: every `createSession` call drives the signer through exactly
the steps set protected header (`HS256`), set expiration time (`7d`, a
7-day window), set issued-at, sign — in that order. -/
theorem signer_steps (sign : SessionPayload → String)
    (now : Nat) (userId email : String) :
    (createSession sign now userId email).signerTrace =
      [SignerStep.setProtectedHeader hs256,
       SignerStep.setExpirationTime sevenDayWindow,
       SignerStep.setIssuedAt,
       SignerStep.sign] ∧
    hs256 = "HS256" ∧ sevenDayWindow = "7d" ∧
    sevenDaysMs = 7 * 24 * 60 * 60 * 1000 :=
  ⟨rfl, rfl, rfl, rfl⟩

/-- Claim C5: the computed `expiresAt` lies in the closed interval
`[lo + 7 days, hi + 7 days]` whenever `lo` and `hi` bound the clock reading
of the call. -/
theorem expiresAt_window (sign : SessionPayload → String)
    (lo now hi : Nat) (userId email : String)
    (h1 : lo ≤ now) (h2 : now ≤ hi) :
    lo + sevenDaysMs ≤ (createSession sign now userId email).payload.expiresAt ∧
    (createSession sign now userId email).payload.expiresAt ≤ hi + sevenDaysMs := by
  simp only [createSession]
  omega

/-- Witness for C5 with the clock read at 5, bounded by 3 and 9. -/
theorem expiresAt_window_witness :
    3 + sevenDaysMs ≤ (createSession mockSign 5 "user-123" "test@example.com").payload.expiresAt ∧
    (createSession mockSign 5 "user-123" "test@example.com").payload.expiresAt ≤ 9 + sevenDaysMs :=
  expiresAt_window mockSign 3 5 9 "user-123" "test@example.com"
    (by decide) (by decide)

/-- Claim C6: the single cookie write of `createSession` is named
`auth-token`, its value is the token the signer returned, and it carries
exactly `httpOnly=true`, `sameSite=lax`, `path=/` and `expires` equal to
the payload's `expiresAt`. -/
theorem cookie_write_exact (sign : SessionPayload → String)
    (now : Nat) (userId email : String) :
    (createSession sign now userId email).cookieOps =
      [CookieOp.set "auth-token" (createSession sign now userId email).token
        ⟨true, "lax", "/", (createSession sign now userId email).payload.expiresAt⟩] ∧
    (createSession sign now userId email).token =
      sign (createSession sign now userId email).payload :=
  ⟨rfl, rfl⟩

/-- Claim C7: `verifySession` satisfies the same contract as `getSession`,
differing only in where the cookie is read from: when the supplied request
carries the same cookie contents as the ambient store, the two functions
return equal results for every verifier behaviour. -/
theorem verifySession_refines_getSession
    (verify : String → Except String SessionPayload)
    (store : String → Option String) (request : NextRequest)
    (h : ∀ name : String, request.cookies name = store name) :
    verifySession verify request = getSession verify store := by
  simp [verifySession, getSession, h]

/-- Witness for C7 on the tampered store and the matching request. -/
theorem verifySession_refines_getSession_witness :
    verifySession rejectAll tamperedRequest = getSession rejectAll tamperedStore :=
  verifySession_refines_getSession rejectAll tamperedStore tamperedRequest
    (fun _ => rfl)

/-- Claim C8: when the cookie store holds no entry under the key
`auth-token`, `getSession` returns `null` (no error), and `auth-token` is
exactly the key looked up — stores agreeing on that key give equal
results. -/
theorem getSession_absent (verify : String → Except String SessionPayload)
    (store : String → Option String)
    (h : store authCookieName = none) :
    getSession verify store = JsValue.null ∧
    authCookieName = "auth-token" ∧
    (∀ other : String → Option String,
       other authCookieName = store authCookieName →
       getSession verify other = getSession verify store) := by
  refine ⟨?_, rfl, ?_⟩
  · simp [getSession, h]
  · intro other hother
    simp [getSession, hother]

/-- Witness for C8 at the empty cookie store. -/
theorem getSession_absent_witness :
    getSession rejectAll emptyStore = JsValue.null ∧
    authCookieName = "auth-token" ∧
    (∀ other : String → Option String,
       other authCookieName = emptyStore authCookieName →
       getSession rejectAll other = getSession rejectAll emptyStore) :=
  getSession_absent rejectAll emptyStore rfl

/-- Claim C9: `deleteSession` performs exactly one cookie-store operation,
a deletion of the key `auth-token` — no get, no set, no error path. -/
theorem deleteSession_exact :
    deleteSession = [CookieOp.delete "auth-token"] :=
  rfl

/-- Claim C10: in every non-success case — cookie absent, or the verifier
rejecting the token — both `getSession` and `verifySession` return exactly
the JavaScript value `null`, a single canonical value distinct from
`undefined` and not a thrown exception, so callers may test for it by
strict comparison. -/
theorem no_session_is_null (verify : String → Except String SessionPayload)
    (absentStore presentStore : String → Option String)
    (absentReq presentReq : NextRequest)
    (t u e1 e2 : String)
    (h1 : absentStore authCookieName = none)
    (h2 : presentStore authCookieName = some t)
    (hvt : verify t = Except.error e1)
    (h3 : absentReq.cookies authCookieName = none)
    (h4 : presentReq.cookies authCookieName = some u)
    (hvu : verify u = Except.error e2) :
    getSession verify absentStore = JsValue.null ∧
    getSession verify presentStore = JsValue.null ∧
    verifySession verify absentReq = JsValue.null ∧
    verifySession verify presentReq = JsValue.null ∧
    JsValue.null ≠ JsValue.undefined := by
  refine ⟨?_, ?_, ?_, ?_, by simp⟩
  · simp [getSession, h1]
  · simp [getSession, h2, hvt]
  · simp [verifySession, h3]
  · simp [verifySession, h4, hvu]

/-- A request carrying no cookies at all. -/
def emptyRequest : NextRequest := ⟨fun _ => none⟩

/-- Witness for C10 at the empty and tampered stores and requests. -/
theorem no_session_is_null_witness :
    getSession rejectAll emptyStore = JsValue.null ∧
    getSession rejectAll tamperedStore = JsValue.null ∧
    verifySession rejectAll emptyRequest = JsValue.null ∧
    verifySession rejectAll tamperedRequest = JsValue.null ∧
    JsValue.null ≠ JsValue.undefined :=
  no_session_is_null rejectAll emptyStore tamperedStore emptyRequest tamperedRequest
    "tampered-token" "tampered-token" "Invalid token" "Invalid token"
    rfl rfl rfl rfl rfl rfl

end Auth
